import Mathlib

/-!
Shallow embedding of the cervical exercise detection engine
(src/src/core/detection_system.py, src/src/core/models.py,
src/src/utils/geometry.py) and verification of its specification.

Conventions of the embedding:
* Python floats are modelled as real numbers.
* A 2D numpy array of length 2 is modelled as a `Point`.
* A method that mutates `self` is modelled as a function returning the
  updated state together with its return value.
* Python exceptions are modelled with `Except String`: a raised exception
  is `.error msg`.  The human-readable message texts from the source are
  abbreviated (emoji and printf-style number formatting are not modelled);
  no verified statement depends on message contents beyond the
  coordinator prefix "Error: ".
-/

namespace CPD

noncomputable section

/-- A 2D point (a numpy array of two floats in the source). -/
structure Point where
  x : ℝ
  y : ℝ

/-- Componentwise numpy addition of two points. -/
def Point.add (p q : Point) : Point :=
  ⟨p.x + q.x, p.y + q.y⟩

/-- Numpy division of a point by a scalar. -/
def Point.divScalar (p : Point) (c : ℝ) : Point :=
  ⟨p.x / c, p.y / c⟩

/-- Models `(a + b) / 2`, the midpoint expression used by the detectors. -/
def mid_point (p q : Point) : Point :=
  (p.add q).divScalar 2

/-- models.LandmarkPoints: the five key landmarks of one frame. -/
structure LandmarkPoints where
  nose : Point
  left_ear : Point
  right_ear : Point
  left_shoulder : Point
  right_shoulder : Point

/-- GeometryUtils.calculate_distance: Euclidean norm of `point1 - point2`. -/
def calculate_distance (point1 point2 : Point) : ℝ :=
  Real.sqrt ((point1.x - point2.x) ^ 2 + (point1.y - point2.y) ^ 2)

/-- GeometryUtils.calculate_ratio: `distance / baseline`, defending
`baseline == 0` to `1.0`. -/
def calculate_ratio (distance baseline : ℝ) : ℝ :=
  if baseline = 0 then 1.0 else distance / baseline

/-- GeometryUtils.smooth_value: exponential smoothing
`smoothing_factor * current + (1 - smoothing_factor) * previous`.
The Python default argument `smoothing_factor=0.3` is made explicit at the
single call site in `BaseDetector.detect`, which passes no factor. -/
def smooth_value (current previous smoothing_factor : ℝ) : ℝ :=
  smoothing_factor * current + (1 - smoothing_factor) * previous

/-- np.median: sort ascending, take the middle element (odd length) or the
mean of the two middle elements (even length).  The empty case (NaN in
numpy) is mapped to the junk value 0; every call site in the source guards
against it. -/
def npMedian (l : List ℝ) : ℝ :=
  let s := l.mergeSort (fun a b => decide (a ≤ b))
  if l.length % 2 = 1 then s.getD (l.length / 2) 0
  else (s.getD (l.length / 2 - 1) 0 + s.getD (l.length / 2) 0) / 2

/-- models.ExerciseType (the five-member enumeration). -/
inductive ExerciseType where
  | cervical_flexion
  | cervical_extension
  | lateral_neck_tilt
  | neck_rotation
  | chin_tuck
deriving DecidableEq

/-- models.DetectionStatus. -/
inductive DetectionStatus where
  | calibrating
  | ready
  | detected
  | not_detected
  | error
deriving DecidableEq

/-- A value of a Python metrics dict entry (float or string). -/
inductive MetricValue where
  | num (v : ℝ)
  | str (s : String)

/-- A Python metrics dict: association list in insertion order. -/
abbrev Metrics := List (String × MetricValue)

/-- models.SystemConfig (dataclass with defaults).  `calibration_frames`
is an arbitrary Python int, hence `ℤ`. -/
structure SystemConfig where
  flexion_threshold : ℝ := 0.85
  extension_threshold : ℝ := 1.15
  tilt_threshold : ℝ := 0.15
  rotation_threshold : ℝ := 1.5
  chin_tuck_threshold : ℝ := 0.8
  calibration_frames : ℤ := 15
  confidence_smoothing : ℝ := 0.3

/-- The all-defaults `SystemConfig()`. -/
def defaultSystemConfig : SystemConfig := {}

/-- models.ExerciseResult. -/
structure ExerciseResult where
  exercise_type : ExerciseType
  detected : Bool
  confidence : ℝ
  status : DetectionStatus
  status_message : String := ""
  metrics : Option Metrics := none

/-- models.CalibrationState (defined in models.py; never attached to any
detector object by the code in detection_system.py). -/
structure CalibrationState where
  frames_collected : ℕ := 0
  frames_required : ℕ := 15
  is_complete : Bool := false

/-- The attributes assigned by `BaseDetector.__init__`. -/
structure BaseFields where
  exercise_type : ExerciseType
  config : SystemConfig
  calibration_frames : ℕ
  frames_collected : ℕ
  is_calibrated : Bool
  previous_confidence : ℝ

/-- Models `BaseDetector.__init__`: note `calibration_frames` is the literal 15,
not `config.calibration_frames`. -/
def base_init (exercise_type : ExerciseType) (config : SystemConfig) : BaseFields :=
  { exercise_type := exercise_type
    config := config
    calibration_frames := 15
    frames_collected := 0
    is_calibrated := false
    previous_confidence := 0 }

/-- The four abstract methods a concrete detector subclass provides.
`detect_exercise` returns `.error` when the Python method would raise
(which happens exactly when a needed baseline attribute is still `None`:
`calculate_ratio(d, None)` evaluates `None == 0` to False and then
`d / None` raises TypeError). -/
structure ExerciseImpl (E : Type) where
  collect_baseline_data : E → LandmarkPoints → E
  finalize_calibration : E → E
  detect_exercise : E → LandmarkPoints → Except String (Bool × ℝ × Metrics)
  generate_status_message : Bool → ℝ → Metrics → String

/-- A detector object: the base-class attributes plus the subclass
attributes `E`. -/
structure Detector (E : Type) where
  base : BaseFields
  ex : E

/-- Models `BaseDetector._handle_calibration`. -/
def handle_calibration (impl : ExerciseImpl E) (s : Detector E)
    (landmarks : LandmarkPoints) : Detector E × ExerciseResult :=
  let s1 : Detector E :=
    { base := { s.base with frames_collected := s.base.frames_collected + 1 }
      ex := impl.collect_baseline_data s.ex landmarks }
  if s1.base.frames_collected ≥ s1.base.calibration_frames then
    ({ s1 with
        base := { s1.base with is_calibrated := true }
        ex := impl.finalize_calibration s1.ex },
     { exercise_type := s.base.exercise_type
       detected := false
       confidence := 0
       status := DetectionStatus.ready
       status_message := "Calibration complete! Start exercising now." })
  else
    (s1,
     { exercise_type := s.base.exercise_type
       detected := false
       confidence := 0
       status := DetectionStatus.calibrating
       status_message := "Calibrating..." })

/-- Models `BaseDetector.detect`.  The `landmarks is None` guard returns ERROR
without touching any state; the detection branch wraps
`_detect_exercise` in try/except and applies `smooth_value` with the
default factor 0.3. -/
def detect (impl : ExerciseImpl E) (s : Detector E)
    (landmarks : Option LandmarkPoints) : Detector E × ExerciseResult :=
  match landmarks with
  | none =>
      (s,
       { exercise_type := s.base.exercise_type
         detected := false
         confidence := 0
         status := DetectionStatus.error
         status_message := "No pose detected - ensure you are visible to camera" })
  | some l =>
      if s.base.is_calibrated then
        match impl.detect_exercise s.ex l with
        | Except.error e =>
            (s,
             { exercise_type := s.base.exercise_type
               detected := false
               confidence := 0
               status := DetectionStatus.error
               status_message := "Detection error: " ++ e })
        | Except.ok (det, confidence, metrics) =>
            let smoothed_confidence := smooth_value confidence s.base.previous_confidence 0.3
            ({ s with base := { s.base with previous_confidence := smoothed_confidence } },
             { exercise_type := s.base.exercise_type
               detected := det
               confidence := smoothed_confidence
               status := if det then DetectionStatus.detected else DetectionStatus.not_detected
               status_message := impl.generate_status_message det smoothed_confidence metrics
               metrics := some metrics })
      else
        handle_calibration impl s l

/-- Models `BaseDetector.reset`: only the three base attributes are touched; the
subclass accumulators and baselines (`ex`) are left as they are. -/
def Detector.reset (s : Detector E) : Detector E :=
  { s with
     base := { s.base with
                frames_collected := 0
                is_calibrated := false
                previous_confidence := 0 } }

/-- Feed a list of frames to one detector, threading its state and
collecting the per-frame results. -/
def run (impl : ExerciseImpl E) (s : Detector E) :
    List (Option LandmarkPoints) → Detector E × List ExerciseResult
  | [] => (s, [])
  | l :: ls =>
      let p := detect impl s l
      let q := run impl p.1 ls
      (q.1, p.2 :: q.2)

/-! ### CervicalFlexionDetector -/

/-- The attributes assigned by `CervicalFlexionDetector.__init__`
(threshold is the literal 0.85, `config.flexion_threshold` is not read). -/
structure FlexionFields where
  baseline_distance : Option ℝ
  calibration_distances : List ℝ
  threshold : ℝ

/-- The per-frame metric of the flexion detector:
`distance(nose, mid_shoulder)`, the expression repeated in its
`_collect_baseline_data` and `_detect_exercise`. -/
def flexion_metric (l : LandmarkPoints) : ℝ :=
  calculate_distance l.nose (mid_point l.left_shoulder l.right_shoulder)

/-- Models `CervicalFlexionDetector._collect_baseline_data` (list.append keeps
chronological order). -/
def flexion_collect (e : FlexionFields) (l : LandmarkPoints) : FlexionFields :=
  { e with calibration_distances := e.calibration_distances ++ [flexion_metric l] }

/-- Models `CervicalFlexionDetector._finalize_calibration`. -/
def flexion_finalize (e : FlexionFields) : FlexionFields :=
  if e.calibration_distances.isEmpty then e
  else { e with baseline_distance := some (npMedian e.calibration_distances) }

/-- Models `CervicalFlexionDetector._detect_exercise`.  With
`baseline_distance = None` the Python code raises TypeError inside
`calculate_ratio`; that cannot happen once calibrated. -/
def flexion_detect_exercise (e : FlexionFields) (l : LandmarkPoints) :
    Except String (Bool × ℝ × Metrics) :=
  match e.baseline_distance with
  | none => Except.error "TypeError"
  | some b =>
      let distance_ratio := calculate_ratio (flexion_metric l) b
      let det : Bool := decide (distance_ratio < e.threshold)
      let confidence : ℝ :=
        if det then max 0 (min 1 ((e.threshold - distance_ratio) / 0.15)) else 0
      Except.ok (det, confidence,
        [("distance_ratio", MetricValue.num distance_ratio),
         ("threshold", MetricValue.num e.threshold)])

/-- Models `CervicalFlexionDetector._generate_status_message` (format specifiers
elided). -/
def flexion_status_message (det : Bool) (_confidence : ℝ) (_metrics : Metrics) : String :=
  if det then "FLEXION DETECTED! Keep lowering chin" else "Lower your chin more towards chest"

/-- The `CervicalFlexionDetector` subclass methods as a bundle. -/
def flexion_impl : ExerciseImpl FlexionFields :=
  { collect_baseline_data := flexion_collect
    finalize_calibration := flexion_finalize
    detect_exercise := flexion_detect_exercise
    generate_status_message := flexion_status_message }

/-- Models `CervicalFlexionDetector.__init__`. -/
def mkCervicalFlexionDetector (config : SystemConfig) : Detector FlexionFields :=
  { base := base_init ExerciseType.cervical_flexion config
    ex := { baseline_distance := none, calibration_distances := [], threshold := 0.85 } }

/-! ### CervicalExtensionDetector -/

/-- The attributes assigned by `CervicalExtensionDetector.__init__`. -/
structure ExtensionFields where
  baseline_distance : Option ℝ
  calibration_distances : List ℝ
  threshold : ℝ

/-- Models `CervicalExtensionDetector._collect_baseline_data` (same metric as
flexion). -/
def extension_collect (e : ExtensionFields) (l : LandmarkPoints) : ExtensionFields :=
  { e with calibration_distances := e.calibration_distances ++ [flexion_metric l] }

/-- Models `CervicalExtensionDetector._finalize_calibration`. -/
def extension_finalize (e : ExtensionFields) : ExtensionFields :=
  if e.calibration_distances.isEmpty then e
  else { e with baseline_distance := some (npMedian e.calibration_distances) }

/-- Models `CervicalExtensionDetector._detect_exercise`. -/
def extension_detect_exercise (e : ExtensionFields) (l : LandmarkPoints) :
    Except String (Bool × ℝ × Metrics) :=
  match e.baseline_distance with
  | none => Except.error "TypeError"
  | some b =>
      let distance_ratio := calculate_ratio (flexion_metric l) b
      let det : Bool := decide (distance_ratio > e.threshold)
      let confidence : ℝ :=
        if det then max 0 (min 1 ((distance_ratio - e.threshold) / 0.15)) else 0
      Except.ok (det, confidence,
        [("distance_ratio", MetricValue.num distance_ratio),
         ("threshold", MetricValue.num e.threshold)])

/-- Models `CervicalExtensionDetector._generate_status_message`. -/
def extension_status_message (det : Bool) (_confidence : ℝ) (_metrics : Metrics) : String :=
  if det then "EXTENSION DETECTED! Keep tilting head back" else "Tilt head back more to look upward"

/-- The `CervicalExtensionDetector` subclass methods as a bundle. -/
def extension_impl : ExerciseImpl ExtensionFields :=
  { collect_baseline_data := extension_collect
    finalize_calibration := extension_finalize
    detect_exercise := extension_detect_exercise
    generate_status_message := extension_status_message }

/-- Models `CervicalExtensionDetector.__init__`. -/
def mkCervicalExtensionDetector (config : SystemConfig) : Detector ExtensionFields :=
  { base := base_init ExerciseType.cervical_extension config
    ex := { baseline_distance := none, calibration_distances := [], threshold := 1.15 } }

/-! ### LateralNeckTiltDetector -/

/-- The attributes assigned by `LateralNeckTiltDetector.__init__`. -/
structure TiltFields where
  baseline_left : Option ℝ
  baseline_right : Option ℝ
  calibration_left : List ℝ
  calibration_right : List ℝ
  threshold : ℝ

/-- Tilt left metric: `distance(nose, left_ear)`. -/
def tilt_left_metric (l : LandmarkPoints) : ℝ :=
  calculate_distance l.nose l.left_ear

/-- Tilt right metric: `distance(nose, right_ear)`. -/
def tilt_right_metric (l : LandmarkPoints) : ℝ :=
  calculate_distance l.nose l.right_ear

/-- Models `LateralNeckTiltDetector._collect_baseline_data`. -/
def tilt_collect (e : TiltFields) (l : LandmarkPoints) : TiltFields :=
  { e with
     calibration_left := e.calibration_left ++ [tilt_left_metric l]
     calibration_right := e.calibration_right ++ [tilt_right_metric l] }

/-- Models `LateralNeckTiltDetector._finalize_calibration`. -/
def tilt_finalize (e : TiltFields) : TiltFields :=
  if e.calibration_left.isEmpty ∨ e.calibration_right.isEmpty then e
  else { e with
          baseline_left := some (npMedian e.calibration_left)
          baseline_right := some (npMedian e.calibration_right) }

/-- Models `LateralNeckTiltDetector._detect_exercise` (the left ratio is computed
first, so a missing left baseline raises first). -/
def tilt_detect_exercise (e : TiltFields) (l : LandmarkPoints) :
    Except String (Bool × ℝ × Metrics) :=
  match e.baseline_left, e.baseline_right with
  | none, _ => Except.error "TypeError"
  | some _, none => Except.error "TypeError"
  | some bl, some br =>
      let left_ratio := calculate_ratio (tilt_left_metric l) bl
      let right_ratio := calculate_ratio (tilt_right_metric l) br
      let ratio_diff := |left_ratio - right_ratio|
      let det : Bool := decide (ratio_diff > e.threshold)
      let confidence : ℝ := if det then max 0 (min 1 (ratio_diff / 0.3)) else 0
      let direction : String := if left_ratio < right_ratio then "LEFT" else "RIGHT"
      Except.ok (det, confidence,
        [("ratio_diff", MetricValue.num ratio_diff),
         ("direction", MetricValue.str direction),
         ("threshold", MetricValue.num e.threshold)])

/-- Models `LateralNeckTiltDetector._generate_status_message`. -/
def tilt_status_message (det : Bool) (_confidence : ℝ) (_metrics : Metrics) : String :=
  if det then "TILT DETECTED!" else "Tilt head more to the side"

/-- The `LateralNeckTiltDetector` subclass methods as a bundle. -/
def tilt_impl : ExerciseImpl TiltFields :=
  { collect_baseline_data := tilt_collect
    finalize_calibration := tilt_finalize
    detect_exercise := tilt_detect_exercise
    generate_status_message := tilt_status_message }

/-- Models `LateralNeckTiltDetector.__init__`. -/
def mkLateralNeckTiltDetector (config : SystemConfig) : Detector TiltFields :=
  { base := base_init ExerciseType.lateral_neck_tilt config
    ex := { baseline_left := none, baseline_right := none,
            calibration_left := [], calibration_right := [], threshold := 0.15 } }

/-! ### NeckRotationDetector -/

/-- The attributes assigned by `NeckRotationDetector.__init__`. -/
structure RotationFields where
  baseline_left : Option ℝ
  baseline_right : Option ℝ
  calibration_left : List ℝ
  calibration_right : List ℝ
  threshold : ℝ

/-- Rotation left metric: `abs(nose.x - left_ear.x)`. -/
def rotation_left_metric (l : LandmarkPoints) : ℝ :=
  |l.nose.x - l.left_ear.x|

/-- Rotation right metric: `abs(nose.x - right_ear.x)`. -/
def rotation_right_metric (l : LandmarkPoints) : ℝ :=
  |l.nose.x - l.right_ear.x|

/-- Models `NeckRotationDetector._collect_baseline_data`. -/
def rotation_collect (e : RotationFields) (l : LandmarkPoints) : RotationFields :=
  { e with
     calibration_left := e.calibration_left ++ [rotation_left_metric l]
     calibration_right := e.calibration_right ++ [rotation_right_metric l] }

/-- Models `NeckRotationDetector._finalize_calibration`. -/
def rotation_finalize (e : RotationFields) : RotationFields :=
  if e.calibration_left.isEmpty ∨ e.calibration_right.isEmpty then e
  else { e with
          baseline_left := some (npMedian e.calibration_left)
          baseline_right := some (npMedian e.calibration_right) }

/-- Models `NeckRotationDetector._detect_exercise`.  Note the direction label:
`"RIGHT" if left_ratio > right_ratio else "LEFT"` — the side opposite to
the larger ratio (turning right moves the nose away from the left ear). -/
def rotation_detect_exercise (e : RotationFields) (l : LandmarkPoints) :
    Except String (Bool × ℝ × Metrics) :=
  match e.baseline_left, e.baseline_right with
  | none, _ => Except.error "TypeError"
  | some _, none => Except.error "TypeError"
  | some bl, some br =>
      let left_ratio := calculate_ratio (rotation_left_metric l) bl
      let right_ratio := calculate_ratio (rotation_right_metric l) br
      let max_ratio := max left_ratio right_ratio
      let det : Bool := decide (max_ratio > e.threshold)
      let confidence : ℝ :=
        if det then max 0 (min 1 ((max_ratio - e.threshold) / 1.0)) else 0
      let direction : String := if left_ratio > right_ratio then "RIGHT" else "LEFT"
      Except.ok (det, confidence,
        [("max_ratio", MetricValue.num max_ratio),
         ("direction", MetricValue.str direction),
         ("threshold", MetricValue.num e.threshold)])

/-- Models `NeckRotationDetector._generate_status_message`. -/
def rotation_status_message (det : Bool) (_confidence : ℝ) (_metrics : Metrics) : String :=
  if det then "ROTATION DETECTED!" else "Turn head more to the side"

/-- The `NeckRotationDetector` subclass methods as a bundle. -/
def rotation_impl : ExerciseImpl RotationFields :=
  { collect_baseline_data := rotation_collect
    finalize_calibration := rotation_finalize
    detect_exercise := rotation_detect_exercise
    generate_status_message := rotation_status_message }

/-- Models `NeckRotationDetector.__init__`. -/
def mkNeckRotationDetector (config : SystemConfig) : Detector RotationFields :=
  { base := base_init ExerciseType.neck_rotation config
    ex := { baseline_left := none, baseline_right := none,
            calibration_left := [], calibration_right := [], threshold := 1.5 } }

/-! ### ChinTuckDetector -/

/-- The attributes assigned by `ChinTuckDetector.__init__`. -/
structure ChinTuckFields where
  baseline_offset : Option ℝ
  baseline_depth : Option ℝ
  calibration_offsets : List ℝ
  calibration_depths : List ℝ
  threshold : ℝ

/-- Chin tuck offset metric: `abs(nose.x - mid_ear.x)`. -/
def chin_tuck_offset_metric (l : LandmarkPoints) : ℝ :=
  |l.nose.x - (mid_point l.left_ear l.right_ear).x|

/-- Chin tuck depth metric: `abs(nose.y - mid_ear.y)`. -/
def chin_tuck_depth_metric (l : LandmarkPoints) : ℝ :=
  |l.nose.y - (mid_point l.left_ear l.right_ear).y|

/-- Models `ChinTuckDetector._collect_baseline_data`. -/
def chin_tuck_collect (e : ChinTuckFields) (l : LandmarkPoints) : ChinTuckFields :=
  { e with
     calibration_offsets := e.calibration_offsets ++ [chin_tuck_offset_metric l]
     calibration_depths := e.calibration_depths ++ [chin_tuck_depth_metric l] }

/-- Models `ChinTuckDetector._finalize_calibration`. -/
def chin_tuck_finalize (e : ChinTuckFields) : ChinTuckFields :=
  if e.calibration_offsets.isEmpty ∨ e.calibration_depths.isEmpty then e
  else { e with
          baseline_offset := some (npMedian e.calibration_offsets)
          baseline_depth := some (npMedian e.calibration_depths) }

/-- Models `ChinTuckDetector._detect_exercise`. -/
def chin_tuck_detect_exercise (e : ChinTuckFields) (l : LandmarkPoints) :
    Except String (Bool × ℝ × Metrics) :=
  match e.baseline_offset, e.baseline_depth with
  | none, _ => Except.error "TypeError"
  | some _, none => Except.error "TypeError"
  | some bo, some bd =>
      let offset_ratio := calculate_ratio (chin_tuck_offset_metric l) bo
      let depth_ratio := calculate_ratio (chin_tuck_depth_metric l) bd
      let det : Bool := decide (offset_ratio < e.threshold ∧ depth_ratio > 1.05)
      let confidence : ℝ :=
        if det then max 0 (min 1 ((e.threshold - offset_ratio) + (depth_ratio - 1.05))) else 0
      Except.ok (det, confidence,
        [("offset_ratio", MetricValue.num offset_ratio),
         ("depth_ratio", MetricValue.num depth_ratio),
         ("threshold", MetricValue.num e.threshold)])

/-- Models `ChinTuckDetector._generate_status_message`. -/
def chin_tuck_status_message (det : Bool) (_confidence : ℝ) (_metrics : Metrics) : String :=
  if det then "CHIN TUCK DETECTED!" else "Pull chin back more"

/-- The `ChinTuckDetector` subclass methods as a bundle. -/
def chin_tuck_impl : ExerciseImpl ChinTuckFields :=
  { collect_baseline_data := chin_tuck_collect
    finalize_calibration := chin_tuck_finalize
    detect_exercise := chin_tuck_detect_exercise
    generate_status_message := chin_tuck_status_message }

/-- Models `ChinTuckDetector.__init__`. -/
def mkChinTuckDetector (config : SystemConfig) : Detector ChinTuckFields :=
  { base := base_init ExerciseType.chin_tuck config
    ex := { baseline_offset := none, baseline_depth := none,
            calibration_offsets := [], calibration_depths := [], threshold := 0.8 } }

/-! ### ExerciseDetectionSystem (the coordinator) -/

/-- Models the `ExerciseDetectionSystem` state: one detector per exercise type plus
session counters (the wall-clock session start time is not modelled). -/
structure ExerciseDetectionSystem where
  config : SystemConfig
  flexion : Detector FlexionFields
  extension : Detector ExtensionFields
  tilt : Detector TiltFields
  rotation : Detector RotationFields
  chin_tuck : Detector ChinTuckFields
  total_detections : ℕ

/-- Models `ExerciseDetectionSystem.__init__`. -/
def mkExerciseDetectionSystem (config : SystemConfig) : ExerciseDetectionSystem :=
  { config := config
    flexion := mkCervicalFlexionDetector config
    extension := mkCervicalExtensionDetector config
    tilt := mkLateralNeckTiltDetector config
    rotation := mkNeckRotationDetector config
    chin_tuck := mkChinTuckDetector config
    total_detections := 0 }

/-- Python attribute read `detector.calibration`.  `BaseDetector.__init__`
assigns only exercise_type, config, calibration_frames, frames_collected,
is_calibrated and previous_confidence; the subclass `__init__`s add the
baselines, accumulators and threshold; no method of detection_system.py
ever assigns a `calibration` attribute.  The read therefore raises
AttributeError on every detector object, in every state. -/
def Detector.calibration_attr (_d : Detector E) : Except String CalibrationState :=
  Except.error "AttributeError"

/-- Models `ExerciseDetectionSystem.is_fully_calibrated`:
`all(detector.calibration.is_complete for detector in self.detectors.values())`.
The generator evaluates `detector.calibration` on successive detectors
(dict insertion order) and short-circuits on the first False or the first
exception. -/
def is_fully_calibrated (s : ExerciseDetectionSystem) : Except String Bool := do
  let c1 ← s.flexion.calibration_attr
  if c1.is_complete = false then return false
  let c2 ← s.extension.calibration_attr
  if c2.is_complete = false then return false
  let c3 ← s.tilt.calibration_attr
  if c3.is_complete = false then return false
  let c4 ← s.rotation.calibration_attr
  if c4.is_complete = false then return false
  let c5 ← s.chin_tuck.calibration_attr
  if c5.is_complete = false then return false
  return true

/-- The per-detector body of the loop in
`ExerciseDetectionSystem.detect_exercises`: `call` is the invocation of
the `detect` invocation of one detector for the current frame (`.error e`
when it raises); the `except` branch substitutes the fallback ERROR result. -/
def detect_exercises_entry (exercise_type : ExerciseType)
    (call : Except String ExerciseResult) : ExerciseResult :=
  match call with
  | Except.ok result => result
  | Except.error e =>
      { exercise_type := exercise_type
        detected := false
        confidence := 0
        status := DetectionStatus.error
        status_message := "Error: " ++ e }

/-- Models `ExerciseDetectionSystem.detect_exercises`, abstracted over what each
`detect` call of each detector does this frame.  The returned mapping is total:
the loop ranges over all five detectors and the `except` branch still
stores a result, so every exercise type has an entry. -/
def detect_exercises_map (calls : ExerciseType → Except String ExerciseResult) :
    ExerciseType → ExerciseResult :=
  fun t => detect_exercises_entry t (calls t)

/-- Constructor call `CervicalFlexionDetector(config)` viewed through the
exception channel: the `__init__` bodies contain no validation and no
raise statement, so construction always succeeds. -/
def CervicalFlexionDetector_init (config : SystemConfig) :
    Except String (Detector FlexionFields) :=
  Except.ok (mkCervicalFlexionDetector config)

/-- Constructor call `ExerciseDetectionSystem(config)` viewed through the
exception channel: no validation anywhere on the construction path. -/
def ExerciseDetectionSystem_init (config : SystemConfig) :
    Except String ExerciseDetectionSystem :=
  Except.ok (mkExerciseDetectionSystem config)

/-! ### Action sequences (detect calls interleaved with resets) -/

/-- One interaction with a detector: a frame (present or absent
landmarks) or a `reset()` call. -/
inductive Action where
  | frame (landmarks : Option LandmarkPoints)
  | reset

/-- Run a list of interactions against one detector, collecting the
results of the detect() calls. -/
def run_actions (impl : ExerciseImpl E) (s : Detector E) :
    List Action → Detector E × List ExerciseResult
  | [] => (s, [])
  | Action.frame l :: acts =>
      let p := detect impl s l
      let q := run_actions impl p.1 acts
      (q.1, p.2 :: q.2)
  | Action.reset :: acts => run_actions impl s.reset acts

/-! ### Concrete frames used in the verification -/

/-- A neutral frame: nose (100,150), ears (90,150) and (110,150),
shoulders (60,250) and (140,250).  Nose to mid-shoulder distance 100,
nose-to-ear horizontal offsets 10 and 10. -/
def lmBase : LandmarkPoints :=
  { nose := ⟨100, 150⟩
    left_ear := ⟨90, 150⟩
    right_ear := ⟨110, 150⟩
    left_shoulder := ⟨60, 250⟩
    right_shoulder := ⟨140, 250⟩ }

/-- As `lmBase` but nose lowered to (100,170): nose to mid-shoulder
distance 80. -/
def lmFlex80 : LandmarkPoints :=
  { lmBase with nose := ⟨100, 170⟩ }

/-- As `lmBase` but nose raised to (100,50): nose to mid-shoulder
distance 200. -/
def lmDist200 : LandmarkPoints :=
  { lmBase with nose := ⟨100, 50⟩ }

/-- As `lmBase` but nose moved to (115,150): horizontal offsets 25 to the
left ear and 5 to the right ear. -/
def lmRotTest : LandmarkPoints :=
  { lmBase with nose := ⟨115, 150⟩ }

/-- The result value every detector returns for a frame that is still
calibrating (abbreviation for statements; equal by definition to the
record built in `handle_calibration`). -/
def calibratingResult (t : ExerciseType) : ExerciseResult :=
  { exercise_type := t
    detected := false
    confidence := 0
    status := DetectionStatus.calibrating
    status_message := "Calibrating..." }

/-- The result value returned on the frame that completes calibration. -/
def readyResult (t : ExerciseType) : ExerciseResult :=
  { exercise_type := t
    detected := false
    confidence := 0
    status := DetectionStatus.ready
    status_message := "Calibration complete! Start exercising now." }

/-- The result value returned for an absent landmark set. -/
def absentResult (t : ExerciseType) : ExerciseResult :=
  { exercise_type := t
    detected := false
    confidence := 0
    status := DetectionStatus.error
    status_message := "No pose detected - ensure you are visible to camera" }

/-- A config that asks for 20 calibration frames. -/
def cfg20 : SystemConfig := { calibration_frames := 20 }

/-- A config with the invalid calibration-frame count 0. -/
def cfg0 : SystemConfig := { calibration_frames := 0 }

/-- A calibrated flexion detector state carrying a non-default config
(used to exhibit that the stored config plays no role in detection). -/
def flexWitnessState : Detector FlexionFields :=
  { base := { exercise_type := ExerciseType.cervical_flexion
              config := cfg20
              calibration_frames := 15
              frames_collected := 15
              is_calibrated := true
              previous_confidence := 0 }
    ex := { baseline_distance := some 100
            calibration_distances := List.replicate 15 (100 : ℝ)
            threshold := 0.85 } }

/-- A fresh flexion detector after 15 frames of `lmBase`. -/
def flexAfter15 : Detector FlexionFields :=
  (run flexion_impl (mkCervicalFlexionDetector defaultSystemConfig)
    (List.replicate 15 (some lmBase))).1

/-- The state `flexAfter15` reaches after `reset()` and 15 further frames at distance 200. -/
def flexRecalibrated : Detector FlexionFields :=
  (run flexion_impl flexAfter15.reset (List.replicate 15 (some lmDist200))).1

/-- A fresh rotation detector after 15 frames of `lmBase`. -/
def rotAfter15 : Detector RotationFields :=
  (run rotation_impl (mkNeckRotationDetector defaultSystemConfig)
    (List.replicate 15 (some lmBase))).1

/-- A frame in which the neck-rotation detector raises while the other
four detectors return normally (their first calibrating frame): the
per-detector outcomes of the coordinator loop. -/
def isolationCalls : ExerciseType → Except String ExerciseResult :=
  fun t =>
    match t with
    | ExerciseType.cervical_flexion =>
        Except.ok (detect flexion_impl (mkCervicalFlexionDetector defaultSystemConfig) (some lmBase)).2
    | ExerciseType.cervical_extension =>
        Except.ok (detect extension_impl (mkCervicalExtensionDetector defaultSystemConfig) (some lmBase)).2
    | ExerciseType.lateral_neck_tilt =>
        Except.ok (detect tilt_impl (mkLateralNeckTiltDetector defaultSystemConfig) (some lmBase)).2
    | ExerciseType.neck_rotation => Except.error "simulated internal failure"
    | ExerciseType.chin_tuck =>
        Except.ok (detect chin_tuck_impl (mkChinTuckDetector defaultSystemConfig) (some lmBase)).2

end

/-! ## Helper lemmas -/

section Lemmas

variable {E : Type}

/-- Behaviour of `detect` on an absent landmark set (helper twin of the C5 theorem,
usable by other proofs). -/
theorem detect_none_aux (impl : ExerciseImpl E) (s : Detector E) :
    detect impl s none =
      (s,
       { exercise_type := s.base.exercise_type
         detected := false
         confidence := 0
         status := DetectionStatus.error
         status_message := "No pose detected - ensure you are visible to camera" }) := rfl

/-- One detect() call strictly before the calibration target: counts the
frame, collects the sample, stays uncalibrated, returns CALIBRATING. -/
theorem detect_calibrating_step (impl : ExerciseImpl E) (s : Detector E)
    (l : LandmarkPoints) (h0 : s.base.is_calibrated = false)
    (h1 : s.base.frames_collected + 1 < s.base.calibration_frames) :
    detect impl s (some l) =
      ({ base := { s.base with frames_collected := s.base.frames_collected + 1 }
         ex := impl.collect_baseline_data s.ex l },
       { exercise_type := s.base.exercise_type
         detected := false
         confidence := 0
         status := DetectionStatus.calibrating
         status_message := "Calibrating..." }) := by
  simp only [detect, h0, Bool.false_eq_true, if_false, handle_calibration]
  rw [if_neg (by omega)]

/-- The detect() call that reaches the calibration target: finalizes the
baseline, flips `is_calibrated`, returns READY. -/
theorem detect_completes (impl : ExerciseImpl E) (s : Detector E)
    (l : LandmarkPoints) (h0 : s.base.is_calibrated = false)
    (h1 : s.base.frames_collected + 1 ≥ s.base.calibration_frames) :
    detect impl s (some l) =
      ({ base := { s.base with
                    frames_collected := s.base.frames_collected + 1
                    is_calibrated := true }
         ex := impl.finalize_calibration (impl.collect_baseline_data s.ex l) },
       { exercise_type := s.base.exercise_type
         detected := false
         confidence := 0
         status := DetectionStatus.ready
         status_message := "Calibration complete! Start exercising now." }) := by
  simp only [detect, h0, Bool.false_eq_true, if_false, handle_calibration]
  rw [if_pos (by omega)]

/-- The runner `run` distributes over list append. -/
theorem run_append (impl : ExerciseImpl E) (s : Detector E)
    (xs ys : List (Option LandmarkPoints)) :
    run impl s (xs ++ ys) =
      ((run impl (run impl s xs).1 ys).1,
        (run impl s xs).2 ++ (run impl (run impl s xs).1 ys).2) := by
  induction xs generalizing s with
  | nil => simp [run]
  | cons x xs ih => simp [run, ih]

/-- Running a block of present frames that stays strictly inside the
calibration phase: frames are counted, samples folded into the
accumulator, every result is CALIBRATING. -/
theorem run_calibrating (impl : ExerciseImpl E) (ls : List LandmarkPoints)
    (s : Detector E) (h0 : s.base.is_calibrated = false)
    (h1 : s.base.frames_collected + ls.length < s.base.calibration_frames) :
    run impl s (ls.map some) =
      ({ base := { s.base with frames_collected := s.base.frames_collected + ls.length }
         ex := ls.foldl impl.collect_baseline_data s.ex },
       ls.map fun _ =>
         { exercise_type := s.base.exercise_type
           detected := false
           confidence := 0
           status := DetectionStatus.calibrating
           status_message := "Calibrating..." }) := by
  induction ls generalizing s with
  | nil => simp [run]
  | cons l ls ih =>
      have hstep := detect_calibrating_step impl s l h0 (by simp at h1; omega)
      have hrec := ih
        ⟨{ s.base with frames_collected := s.base.frames_collected + 1 },
          impl.collect_baseline_data s.ex l⟩ h0
        (show s.base.frames_collected + 1 + ls.length < s.base.calibration_frames by
          simp at h1; omega)
      simp only [List.map_cons, run, hstep, hrec]
      simp only [Prod.mk.injEq, Detector.mk.injEq, BaseFields.mk.injEq, List.foldl,
        List.length_cons, and_true, true_and]
      omega

/-- Sorting a constant list leaves it unchanged. -/
theorem mergeSort_replicate (n : ℕ) (c : ℝ) :
    (List.replicate n c).mergeSort (fun a b => decide (a ≤ b)) = List.replicate n c :=
  List.mergeSort_eq_self (by
    rw [List.Sorted]
    exact List.pairwise_replicate.mpr (Or.inr le_rfl))

/-- Evaluates `getD` inside a constant list. -/
theorem getD_replicate (n i : ℕ) (c : ℝ) (h : i < n) :
    (List.replicate n c).getD i 0 = c := by
  rw [List.getD_eq_getElem?_getD, List.getElem?_replicate, if_pos h]
  rfl

/-- The median of a nonempty constant list is the constant. -/
theorem npMedian_replicate (n : ℕ) (c : ℝ) (h : n ≠ 0) :
    npMedian (List.replicate n c) = c := by
  unfold npMedian
  rw [mergeSort_replicate]
  simp only [List.length_replicate]
  by_cases hp : n % 2 = 1
  · rw [if_pos hp, getD_replicate _ _ _ (by omega)]
  · rw [if_neg hp, getD_replicate _ _ _ (by omega), getD_replicate _ _ _ (by omega)]
    ring

/-- The (even-length) median of fifteen copies of 100 followed by fifteen
copies of 200 is the mean of the two middle elements, 150. -/
theorem npMedian_block30 :
    npMedian (List.replicate 15 (100 : ℝ) ++ List.replicate 15 200) = 150 := by
  have hs : List.Sorted (· ≤ ·) (List.replicate 15 (100 : ℝ) ++ List.replicate 15 200) := by
    rw [List.Sorted, List.pairwise_append]
    refine ⟨List.pairwise_replicate.mpr (Or.inr le_rfl),
      List.pairwise_replicate.mpr (Or.inr le_rfl), ?_⟩
    intro a ha b hb
    rw [List.eq_of_mem_replicate ha, List.eq_of_mem_replicate hb]
    norm_num
  unfold npMedian
  rw [List.mergeSort_eq_self hs]
  simp only [List.length_append, List.length_replicate]
  rw [if_neg (by norm_num)]
  rw [show (15 + 15) / 2 - 1 = 14 by norm_num, show (15 + 15) / 2 = 15 by norm_num]
  rw [List.getD_append _ _ _ _ (by simp), List.getD_append_right _ _ _ _ (by simp)]
  rw [getD_replicate _ _ _ (by norm_num)]
  simp only [List.length_replicate]
  rw [getD_replicate _ _ _ (by norm_num)]
  norm_num

/-- Distance between two points sharing an x coordinate. -/
theorem calculate_distance_vertical (x y1 y2 : ℝ) :
    calculate_distance ⟨x, y1⟩ ⟨x, y2⟩ = |y1 - y2| := by
  unfold calculate_distance
  simp only [sub_self]
  rw [show (0 : ℝ) ^ 2 + (y1 - y2) ^ 2 = (y1 - y2) ^ 2 by ring, Real.sqrt_sq_eq_abs]

/-- The mid-shoulder point of the neutral frame. -/
theorem mid_shoulder_lmBase :
    mid_point lmBase.left_shoulder lmBase.right_shoulder = ⟨100, 250⟩ := by
  simp only [lmBase, mid_point, Point.add, Point.divScalar, Point.mk.injEq]
  norm_num

/-- Nose to mid-shoulder distance of the neutral frame. -/
theorem flexion_metric_lmBase : flexion_metric lmBase = 100 := by
  rw [flexion_metric, mid_shoulder_lmBase]
  show calculate_distance ⟨100, 150⟩ ⟨100, 250⟩ = 100
  rw [calculate_distance_vertical, abs_sub_comm]
  rw [abs_of_nonneg (by norm_num)]
  norm_num

/-- Nose to mid-shoulder distance of the lowered-nose frame. -/
theorem flexion_metric_lmFlex80 : flexion_metric lmFlex80 = 80 := by
  rw [flexion_metric]
  rw [show mid_point lmFlex80.left_shoulder lmFlex80.right_shoulder = ⟨100, 250⟩ from
    mid_shoulder_lmBase]
  show calculate_distance ⟨100, 170⟩ ⟨100, 250⟩ = 80
  rw [calculate_distance_vertical, abs_sub_comm, abs_of_nonneg (by norm_num)]
  norm_num

/-- Nose to mid-shoulder distance of the raised-nose frame. -/
theorem flexion_metric_lmDist200 : flexion_metric lmDist200 = 200 := by
  rw [flexion_metric]
  rw [show mid_point lmDist200.left_shoulder lmDist200.right_shoulder = ⟨100, 250⟩ from
    mid_shoulder_lmBase]
  show calculate_distance ⟨100, 50⟩ ⟨100, 250⟩ = 200
  rw [calculate_distance_vertical, abs_sub_comm, abs_of_nonneg (by norm_num)]
  norm_num

/-- Rotation left metric of the neutral frame. -/
theorem rotation_left_metric_lmBase : rotation_left_metric lmBase = 10 := by
  simp only [rotation_left_metric, lmBase]
  rw [show (100 : ℝ) - 90 = 10 by norm_num, abs_of_nonneg (by norm_num : (0 : ℝ) ≤ 10)]

/-- Rotation right metric of the neutral frame. -/
theorem rotation_right_metric_lmBase : rotation_right_metric lmBase = 10 := by
  simp only [rotation_right_metric, lmBase]
  rw [show (100 : ℝ) - 110 = -10 by norm_num, abs_neg, abs_of_nonneg (by norm_num : (0 : ℝ) ≤ 10)]

/-- Rotation left metric of the turned-head frame. -/
theorem rotation_left_metric_lmRotTest : rotation_left_metric lmRotTest = 25 := by
  simp only [rotation_left_metric, lmRotTest, lmBase]
  rw [show (115 : ℝ) - 90 = 25 by norm_num, abs_of_nonneg (by norm_num : (0 : ℝ) ≤ 25)]

/-- Rotation right metric of the turned-head frame. -/
theorem rotation_right_metric_lmRotTest : rotation_right_metric lmRotTest = 5 := by
  simp only [rotation_right_metric, lmRotTest, lmBase]
  rw [show (115 : ℝ) - 110 = 5 by norm_num, abs_of_nonneg (by norm_num : (0 : ℝ) ≤ 5)]

/-- Mapping a constant function is `replicate`. -/
theorem map_const_replicate {α β : Type} (xs : List α) (c : β) :
    xs.map (fun _ => c) = List.replicate xs.length c := by
  induction xs with
  | nil => rfl
  | cons x xs ih => simp [ih, List.replicate_succ]

/-- Folding the flexion sample collector appends the per-frame metrics in
chronological order and changes nothing else. -/
theorem flexion_foldl (ls : List LandmarkPoints) (e : FlexionFields) :
    List.foldl flexion_impl.collect_baseline_data e ls =
      { e with calibration_distances := e.calibration_distances ++ ls.map flexion_metric } := by
  induction ls generalizing e with
  | nil => simp
  | cons l ls ih =>
      rw [List.foldl_cons]
      show List.foldl flexion_impl.collect_baseline_data (flexion_collect e l) ls = _
      rw [ih]
      simp [flexion_collect]

/-- Folding the rotation sample collector appends both per-frame metrics
in chronological order and changes nothing else. -/
theorem rotation_foldl (ls : List LandmarkPoints) (e : RotationFields) :
    List.foldl rotation_impl.collect_baseline_data e ls =
      { e with
         calibration_left := e.calibration_left ++ ls.map rotation_left_metric
         calibration_right := e.calibration_right ++ ls.map rotation_right_metric } := by
  induction ls generalizing e with
  | nil => simp
  | cons l ls ih =>
      rw [List.foldl_cons]
      show List.foldl rotation_impl.collect_baseline_data (rotation_collect e l) ls = _
      rw [ih]
      simp [rotation_collect]

/-- Unfolds `run` on a single frame. -/
theorem run_singleton (impl : ExerciseImpl E) (s : Detector E) (l : Option LandmarkPoints) :
    run impl s [l] = ((detect impl s l).1, [(detect impl s l).2]) := rfl

/-- A full 15-frame calibration pass of the flexion detector from any
uncalibrated zero-count state: 14 CALIBRATING results, one READY result,
and a baseline that is the median of whatever the accumulator holds plus
the 15 new samples. -/
theorem flexion_run_calibration (s : Detector FlexionFields) (ls : List LandmarkPoints)
    (h0 : s.base.is_calibrated = false) (h1 : s.base.frames_collected = 0)
    (h2 : s.base.calibration_frames = 15) (hlen : ls.length = 15) :
    run flexion_impl s (ls.map some) =
      ({ base := { s.base with frames_collected := 15, is_calibrated := true }
         ex := { baseline_distance :=
                   some (npMedian (s.ex.calibration_distances ++ ls.map flexion_metric))
                 calibration_distances := s.ex.calibration_distances ++ ls.map flexion_metric
                 threshold := s.ex.threshold } },
       List.replicate 14 (calibratingResult s.base.exercise_type) ++
         [readyResult s.base.exercise_type]) := by
  obtain ⟨l15, hl15⟩ : ∃ a, ls.drop 14 = [a] :=
    List.length_eq_one.mp (by rw [List.length_drop, hlen])
  have htk : (ls.take 14).length = 14 := by rw [List.length_take]; omega
  have hsplit : ls = ls.take 14 ++ [l15] := by rw [← hl15, List.take_append_drop]
  have hA := run_calibrating flexion_impl (ls.take 14) s h0 (by omega)
  rw [hsplit, List.map_append, run_append, hA]
  simp only [List.map_cons, List.map_nil, run_singleton]
  rw [detect_completes flexion_impl _ l15 (by exact h0)
    (by show s.base.frames_collected + (ls.take 14).length + 1 ≥ s.base.calibration_frames
        omega)]
  simp only [flexion_foldl, map_const_replicate, htk, h1]
  simp [flexion_impl, flexion_collect, flexion_finalize, calibratingResult, readyResult,
    List.append_assoc]


/-- A full 15-frame calibration pass of the rotation detector from any
uncalibrated zero-count state. -/
theorem rotation_run_calibration (s : Detector RotationFields) (ls : List LandmarkPoints)
    (h0 : s.base.is_calibrated = false) (h1 : s.base.frames_collected = 0)
    (h2 : s.base.calibration_frames = 15) (hlen : ls.length = 15) :
    run rotation_impl s (ls.map some) =
      ({ base := { s.base with frames_collected := 15, is_calibrated := true }
         ex := { baseline_left :=
                   some (npMedian (s.ex.calibration_left ++ ls.map rotation_left_metric))
                 baseline_right :=
                   some (npMedian (s.ex.calibration_right ++ ls.map rotation_right_metric))
                 calibration_left := s.ex.calibration_left ++ ls.map rotation_left_metric
                 calibration_right := s.ex.calibration_right ++ ls.map rotation_right_metric
                 threshold := s.ex.threshold } },
       List.replicate 14 (calibratingResult s.base.exercise_type) ++
         [readyResult s.base.exercise_type]) := by
  obtain ⟨l15, hl15⟩ : ∃ a, ls.drop 14 = [a] :=
    List.length_eq_one.mp (by rw [List.length_drop, hlen])
  have htk : (ls.take 14).length = 14 := by rw [List.length_take]; omega
  have hsplit : ls = ls.take 14 ++ [l15] := by rw [← hl15, List.take_append_drop]
  have hA := run_calibrating rotation_impl (ls.take 14) s h0 (by omega)
  rw [hsplit, List.map_append, run_append, hA]
  simp only [List.map_cons, List.map_nil, run_singleton]
  rw [detect_completes rotation_impl _ l15 (by exact h0)
    (by show s.base.frames_collected + (ls.take 14).length + 1 ≥ s.base.calibration_frames
        omega)]
  simp only [rotation_foldl, map_const_replicate, htk, h1]
  simp [rotation_impl, rotation_collect, rotation_finalize, calibratingResult, readyResult,
    List.append_assoc]

/-- The flexion detector state after calibrating on 15 neutral frames. -/
theorem flexAfter15_eq :
    flexAfter15 =
      { base := { exercise_type := ExerciseType.cervical_flexion
                  config := defaultSystemConfig
                  calibration_frames := 15
                  frames_collected := 15
                  is_calibrated := true
                  previous_confidence := 0 }
        ex := { baseline_distance := some 100
                calibration_distances := List.replicate 15 (100 : ℝ)
                threshold := 0.85 } } := by
  unfold flexAfter15
  rw [show List.replicate 15 (some lmBase) = (List.replicate 15 lmBase).map some by
    rw [List.map_replicate]]
  rw [flexion_run_calibration _ _ rfl rfl rfl (by simp)]
  simp only [mkCervicalFlexionDetector, base_init, List.map_replicate, flexion_metric_lmBase,
    List.nil_append, npMedian_replicate 15 (100 : ℝ) (by norm_num)]

/-- The rotation detector state after calibrating on 15 neutral frames. -/
theorem rotAfter15_eq :
    rotAfter15 =
      { base := { exercise_type := ExerciseType.neck_rotation
                  config := defaultSystemConfig
                  calibration_frames := 15
                  frames_collected := 15
                  is_calibrated := true
                  previous_confidence := 0 }
        ex := { baseline_left := some 10
                baseline_right := some 10
                calibration_left := List.replicate 15 (10 : ℝ)
                calibration_right := List.replicate 15 (10 : ℝ)
                threshold := 1.5 } } := by
  unfold rotAfter15
  rw [show List.replicate 15 (some lmBase) = (List.replicate 15 lmBase).map some by
    rw [List.map_replicate]]
  rw [rotation_run_calibration _ _ rfl rfl rfl (by simp)]
  simp only [mkNeckRotationDetector, base_init, List.map_replicate, rotation_left_metric_lmBase,
    rotation_right_metric_lmBase, List.nil_append, npMedian_replicate 15 (10 : ℝ) (by norm_num)]

/-- The calibrated flexion detector on the distance-80 frame: detected,
raw confidence one third. -/
theorem flexion_detect80 :
    flexion_impl.detect_exercise
        { baseline_distance := some 100
          calibration_distances := List.replicate 15 (100 : ℝ)
          threshold := 0.85 } lmFlex80 =
      Except.ok (true, 1 / 3,
        [("distance_ratio", MetricValue.num (80 / 100)),
         ("threshold", MetricValue.num 0.85)]) := by
  simp only [flexion_impl]
  unfold flexion_detect_exercise
  simp only [flexion_metric_lmFlex80]
  rw [show calculate_ratio 80 100 = 80 / 100 by
    unfold calculate_ratio; rw [if_neg (by norm_num)]]
  rw [show decide ((80 : ℝ) / 100 < (0.85 : ℝ)) = true from decide_eq_true (by norm_num)]
  simp only [if_true]
  rw [show ((0.85 : ℝ) - 80 / 100) / 0.15 = 1 / 3 by norm_num]
  rw [min_eq_right (by norm_num), max_eq_right (by norm_num)]

/-- The calibrated rotation detector on the turned-head frame: both
ratios computed, detected with confidence 1, direction RIGHT even though
the left ratio is the larger one. -/
theorem rotation_detect_lmRotTest :
    rotation_impl.detect_exercise
        { baseline_left := some 10
          baseline_right := some 10
          calibration_left := List.replicate 15 (10 : ℝ)
          calibration_right := List.replicate 15 (10 : ℝ)
          threshold := 1.5 } lmRotTest =
      Except.ok (true, 1,
        [("max_ratio", MetricValue.num (5 / 2)),
         ("direction", MetricValue.str "RIGHT"),
         ("threshold", MetricValue.num 1.5)]) := by
  simp only [rotation_impl]
  unfold rotation_detect_exercise
  simp only [rotation_left_metric_lmRotTest, rotation_right_metric_lmRotTest]
  rw [show calculate_ratio 25 10 = 5 / 2 by
    unfold calculate_ratio; rw [if_neg (by norm_num)]; norm_num]
  rw [show calculate_ratio 5 10 = 1 / 2 by
    unfold calculate_ratio; rw [if_neg (by norm_num)]; norm_num]
  rw [show max ((5 : ℝ) / 2) (1 / 2) = 5 / 2 from max_eq_left (by norm_num)]
  rw [show decide ((5 : ℝ) / 2 > (1.5 : ℝ)) = true from decide_eq_true (by norm_num)]
  rw [if_pos rfl, if_pos (show (5 : ℝ) / 2 > (1 : ℝ) / 2 by norm_num)]
  rw [show ((5 : ℝ) / 2 - 1.5) / 1.0 = 1 by norm_num]
  rw [min_self, max_eq_right (by norm_num)]

/-- The clamp `max 0 (min 1 x)` is nonnegative. -/
theorem clamp01_nonneg (x : ℝ) : 0 ≤ max 0 (min 1 x) := le_max_left 0 _

/-- The clamp `max 0 (min 1 x)` is at most one. -/
theorem clamp01_le_one (x : ℝ) : max 0 (min 1 x) ≤ 1 :=
  max_le zero_le_one (min_le_left 1 x)

/-- The flexion detector clamps its raw confidence into [0,1]. -/
theorem flexion_conf01 (e : FlexionFields) (l : LandmarkPoints) (d : Bool) (c : ℝ)
    (m : Metrics) (h : flexion_impl.detect_exercise e l = Except.ok (d, c, m)) :
    0 ≤ c ∧ c ≤ 1 := by
  revert h
  simp only [flexion_impl]
  unfold flexion_detect_exercise
  cases e.baseline_distance with
  | none => intro h; simp at h
  | some b =>
      intro h
      simp only [Except.ok.injEq, Prod.mk.injEq] at h
      obtain ⟨-, hc, -⟩ := h
      rw [← hc]
      split
      · exact ⟨clamp01_nonneg _, clamp01_le_one _⟩
      · norm_num

/-- The extension detector clamps its raw confidence into [0,1]. -/
theorem extension_conf01 (e : ExtensionFields) (l : LandmarkPoints) (d : Bool) (c : ℝ)
    (m : Metrics) (h : extension_impl.detect_exercise e l = Except.ok (d, c, m)) :
    0 ≤ c ∧ c ≤ 1 := by
  revert h
  simp only [extension_impl]
  unfold extension_detect_exercise
  cases e.baseline_distance with
  | none => intro h; simp at h
  | some b =>
      intro h
      simp only [Except.ok.injEq, Prod.mk.injEq] at h
      obtain ⟨-, hc, -⟩ := h
      rw [← hc]
      split
      · exact ⟨clamp01_nonneg _, clamp01_le_one _⟩
      · norm_num

/-- The tilt detector clamps its raw confidence into [0,1]. -/
theorem tilt_conf01 (e : TiltFields) (l : LandmarkPoints) (d : Bool) (c : ℝ)
    (m : Metrics) (h : tilt_impl.detect_exercise e l = Except.ok (d, c, m)) :
    0 ≤ c ∧ c ≤ 1 := by
  revert h
  simp only [tilt_impl]
  unfold tilt_detect_exercise
  cases e.baseline_left with
  | none => intro h; simp at h
  | some bl =>
      cases e.baseline_right with
      | none => intro h; simp at h
      | some br =>
          intro h
          simp only [Except.ok.injEq, Prod.mk.injEq] at h
          obtain ⟨-, hc, -⟩ := h
          rw [← hc]
          split
          · exact ⟨clamp01_nonneg _, clamp01_le_one _⟩
          · norm_num

/-- The rotation detector clamps its raw confidence into [0,1]. -/
theorem rotation_conf01 (e : RotationFields) (l : LandmarkPoints) (d : Bool) (c : ℝ)
    (m : Metrics) (h : rotation_impl.detect_exercise e l = Except.ok (d, c, m)) :
    0 ≤ c ∧ c ≤ 1 := by
  revert h
  simp only [rotation_impl]
  unfold rotation_detect_exercise
  cases e.baseline_left with
  | none => intro h; simp at h
  | some bl =>
      cases e.baseline_right with
      | none => intro h; simp at h
      | some br =>
          intro h
          simp only [Except.ok.injEq, Prod.mk.injEq] at h
          obtain ⟨-, hc, -⟩ := h
          rw [← hc]
          split
          · exact ⟨clamp01_nonneg _, clamp01_le_one _⟩
          · norm_num

/-- The chin-tuck detector clamps its raw confidence into [0,1]. -/
theorem chin_tuck_conf01 (e : ChinTuckFields) (l : LandmarkPoints) (d : Bool) (c : ℝ)
    (m : Metrics) (h : chin_tuck_impl.detect_exercise e l = Except.ok (d, c, m)) :
    0 ≤ c ∧ c ≤ 1 := by
  revert h
  simp only [chin_tuck_impl]
  unfold chin_tuck_detect_exercise
  cases e.baseline_offset with
  | none => intro h; simp at h
  | some bo =>
      cases e.baseline_depth with
      | none => intro h; simp at h
      | some bd =>
          intro h
          simp only [Except.ok.injEq, Prod.mk.injEq] at h
          obtain ⟨-, hc, -⟩ := h
          rw [← hc]
          split
          · exact ⟨clamp01_nonneg _, clamp01_le_one _⟩
          · norm_num

/-- One detect() call keeps the reported confidence and the stored
previous confidence inside [0,1], provided the exercise-specific raw
confidence is clamped. -/
theorem detect_conf01 (impl : ExerciseImpl E)
    (H : ∀ e l d c m, impl.detect_exercise e l = Except.ok (d, c, m) → 0 ≤ c ∧ c ≤ 1)
    (s : Detector E)
    (hs : 0 ≤ s.base.previous_confidence ∧ s.base.previous_confidence ≤ 1)
    (l : Option LandmarkPoints) :
    (0 ≤ (detect impl s l).2.confidence ∧ (detect impl s l).2.confidence ≤ 1) ∧
      (0 ≤ (detect impl s l).1.base.previous_confidence ∧
        (detect impl s l).1.base.previous_confidence ≤ 1) := by
  cases l with
  | none => exact ⟨⟨le_refl 0, zero_le_one⟩, hs⟩
  | some lm =>
      by_cases hcal : s.base.is_calibrated
      · rcases hde : impl.detect_exercise s.ex lm with e | ⟨d, c, m⟩
        · simp only [detect, hcal, if_true, hde]
          exact ⟨⟨le_refl 0, zero_le_one⟩, hs⟩
        · have hc01 := H _ _ _ _ _ hde
          simp only [detect, hcal, if_true, hde, smooth_value]
          constructor
          · constructor
            · nlinarith [hc01.1, hc01.2, hs.1, hs.2]
            · nlinarith [hc01.1, hc01.2, hs.1, hs.2]
          · constructor
            · nlinarith [hc01.1, hc01.2, hs.1, hs.2]
            · nlinarith [hc01.1, hc01.2, hs.1, hs.2]
      · rw [Bool.not_eq_true] at hcal
        simp only [detect, hcal, Bool.false_eq_true, if_false, handle_calibration]
        split
        · exact ⟨⟨le_refl 0, zero_le_one⟩, hs⟩
        · exact ⟨⟨le_refl 0, zero_le_one⟩, hs⟩

/-- Any sequence of detect() calls (present or absent frames) interleaved
with resets keeps every reported confidence and the stored previous
confidence inside [0,1]. -/
theorem run_actions_conf01 (impl : ExerciseImpl E)
    (H : ∀ e l d c m, impl.detect_exercise e l = Except.ok (d, c, m) → 0 ≤ c ∧ c ≤ 1)
    (acts : List Action) (s : Detector E)
    (hs : 0 ≤ s.base.previous_confidence ∧ s.base.previous_confidence ≤ 1) :
    (∀ r ∈ (run_actions impl s acts).2, 0 ≤ r.confidence ∧ r.confidence ≤ 1) ∧
      (0 ≤ (run_actions impl s acts).1.base.previous_confidence ∧
        (run_actions impl s acts).1.base.previous_confidence ≤ 1) := by
  induction acts generalizing s with
  | nil =>
      refine ⟨?_, hs⟩
      intro r hr
      simp [run_actions] at hr
  | cons a acts ih =>
      cases a with
      | frame l =>
          have hstep := detect_conf01 impl H s hs l
          have hrec := ih (detect impl s l).1 hstep.2
          simp only [run_actions]
          refine ⟨?_, hrec.2⟩
          intro r hr
          rcases List.mem_cons.mp hr with hr | hr
          · rw [hr]; exact hstep.1
          · exact hrec.1 r hr
      | reset =>
          have hs2 : 0 ≤ s.reset.base.previous_confidence ∧
              s.reset.base.previous_confidence ≤ 1 := by
            simp [Detector.reset]
          simpa [run_actions] using ih s.reset hs2

/-- A full 15-frame calibration pass of any detector from a fresh base
state: the result statuses are 14 CALIBRATING then one READY, and the
detector ends calibrated. -/
theorem run_calibration_statuses (impl : ExerciseImpl E) (s : Detector E)
    (ls : List LandmarkPoints) (h0 : s.base.is_calibrated = false)
    (h1 : s.base.frames_collected = 0) (h2 : s.base.calibration_frames = 15)
    (hlen : ls.length = 15) :
    (run impl s (ls.map some)).2.map ExerciseResult.status =
      List.replicate 14 DetectionStatus.calibrating ++ [DetectionStatus.ready] ∧
    (run impl s (ls.map some)).1.base.is_calibrated = true := by
  obtain ⟨l15, hl15⟩ : ∃ a, ls.drop 14 = [a] :=
    List.length_eq_one.mp (by rw [List.length_drop, hlen])
  have htk : (ls.take 14).length = 14 := by rw [List.length_take]; omega
  have hsplit : ls = ls.take 14 ++ [l15] := by rw [← hl15, List.take_append_drop]
  have hA := run_calibrating impl (ls.take 14) s h0 (by omega)
  rw [hsplit, List.map_append, run_append, hA]
  simp only [List.map_cons, List.map_nil, run_singleton]
  rw [detect_completes impl _ l15 (by exact h0)
    (by show s.base.frames_collected + (ls.take 14).length + 1 ≥ s.base.calibration_frames
        omega)]
  constructor
  · simp only [List.map_append, List.map_map, Function.comp, List.map_cons, List.map_nil,
      map_const_replicate, htk, List.map_replicate]
  · rfl

end Lemmas

/-! ## The claims -/

section Claims

variable {E : Type}

/-- C5: for every detector in every state, detect() on an absent
LandmarkSet returns status ERROR with detected=false and confidence 0,
and the whole detector state (base counters, flags, previous confidence,
and all exercise-specific accumulators and baselines) is returned
unchanged. -/
theorem detect_absent_error (impl : ExerciseImpl E) (s : Detector E) :
    detect impl s none = (s, absentResult s.base.exercise_type) ∧
    (detect impl s none).2.status = DetectionStatus.error ∧
    (detect impl s none).2.detected = false ∧
    (detect impl s none).2.confidence = 0 :=
  ⟨rfl, rfl, rfl, rfl⟩

/-- C1: is_fully_calibrated() does not return a boolean in any coordinator
state: every detector object lacks the `calibration` attribute that the
method reads, so the call raises AttributeError unconditionally (the spec
promises a non-raising boolean that is true iff all five detectors are
calibrated). -/
theorem is_fully_calibrated_raises (s : ExerciseDetectionSystem) :
    is_fully_calibrated s = Except.error "AttributeError" := rfl

/-- C9: in the coordinator loop, if exactly one detector invocation
raises, that exercise type gets an ERROR entry carrying the failure text,
every other exercise type gets exactly the result its detector produced,
and (the mapping being a total function) all five exercise types have an
entry. -/
theorem coordinator_isolation (calls : ExerciseType → Except String ExerciseResult)
    (t0 : ExerciseType) (e : String) (h1 : calls t0 = Except.error e) :
    detect_exercises_map calls t0 =
      { exercise_type := t0
        detected := false
        confidence := 0
        status := DetectionStatus.error
        status_message := "Error: " ++ e } ∧
    (∀ t : ExerciseType, t ≠ t0 → ∀ r : ExerciseResult,
      calls t = Except.ok r → detect_exercises_map calls t = r) := by
  constructor
  · simp [detect_exercises_map, detect_exercises_entry, h1]
  · intro t ht r hr
    simp [detect_exercises_map, detect_exercises_entry, hr]

/-- Witness for C9: the concrete frame in which the rotation detector
raises "simulated internal failure" and the other four return their first
calibrating result. -/
theorem coordinator_isolation_witness :
    isolationCalls ExerciseType.neck_rotation = Except.error "simulated internal failure" ∧
    (detect_exercises_map isolationCalls ExerciseType.neck_rotation =
      { exercise_type := ExerciseType.neck_rotation
        detected := false
        confidence := 0
        status := DetectionStatus.error
        status_message := "Error: " ++ "simulated internal failure" } ∧
    (∀ t : ExerciseType, t ≠ ExerciseType.neck_rotation → ∀ r : ExerciseResult,
      isolationCalls t = Except.ok r → detect_exercises_map isolationCalls t = r)) :=
  ⟨rfl, coordinator_isolation isolationCalls ExerciseType.neck_rotation
    "simulated internal failure" rfl⟩

/-- C7 counterexample: construction with the invalid calibration-frame
count 0 is not rejected: both the detector and the system constructor
return normally, the detector ignores the configured value (it uses the
hardcoded 15), and the first frame is processed as a normal CALIBRATING
frame, not an error. -/
theorem construction_accepts_zero_frames :
    CervicalFlexionDetector_init cfg0 = Except.ok (mkCervicalFlexionDetector cfg0) ∧
    ExerciseDetectionSystem_init cfg0 = Except.ok (mkExerciseDetectionSystem cfg0) ∧
    cfg0.calibration_frames = 0 ∧
    (mkCervicalFlexionDetector cfg0).base.calibration_frames = 15 ∧
    (detect flexion_impl (mkCervicalFlexionDetector cfg0) (some lmBase)).2.status =
      DetectionStatus.calibrating :=
  ⟨rfl, rfl, rfl, rfl, rfl⟩

/-- C7 amended: constructing a detector or the system with a
calibration-frame count ≤ 0 is accepted without any validation or error;
the value is never used (the detectors hardcode 15 frames), so it neither
fails eagerly nor surfaces later as per-frame errors. -/
theorem construction_never_rejects (config : SystemConfig)
    (h : config.calibration_frames ≤ 0) :
    CervicalFlexionDetector_init config = Except.ok (mkCervicalFlexionDetector config) ∧
    ExerciseDetectionSystem_init config = Except.ok (mkExerciseDetectionSystem config) ∧
    (mkCervicalFlexionDetector config).base.calibration_frames = 15 ∧
    ∀ l : LandmarkPoints,
      (detect flexion_impl (mkCervicalFlexionDetector config) (some l)).2.status =
        DetectionStatus.calibrating :=
  ⟨rfl, rfl, rfl, fun _ => rfl⟩

/-- Witness for C7 amended at the concrete config with 0 calibration
frames. -/
theorem construction_never_rejects_witness :
    cfg0.calibration_frames ≤ 0 ∧
    (CervicalFlexionDetector_init cfg0 = Except.ok (mkCervicalFlexionDetector cfg0) ∧
     ExerciseDetectionSystem_init cfg0 = Except.ok (mkExerciseDetectionSystem cfg0) ∧
     (mkCervicalFlexionDetector cfg0).base.calibration_frames = 15 ∧
     ∀ l : LandmarkPoints,
       (detect flexion_impl (mkCervicalFlexionDetector cfg0) (some l)).2.status =
         DetectionStatus.calibrating) :=
  ⟨by decide, construction_never_rejects cfg0 (by decide)⟩

/-- C2: reset() clears the base counters and flags but NOT the
exercise-specific sample accumulators: after a full calibration at
distance 100, reset() leaves the 15 old samples in
calibration_distances, so a second full calibration at distance 200
finalizes the median of all 30 samples, 150 — not the median 200 of the
newly collected samples alone (thresholds are indeed unchanged). -/
theorem reset_keeps_stale_samples :
    flexAfter15.reset.base.frames_collected = 0 ∧
    flexAfter15.reset.base.is_calibrated = false ∧
    flexAfter15.reset.base.previous_confidence = 0 ∧
    flexAfter15.reset.ex.threshold = 0.85 ∧
    flexAfter15.reset.ex.calibration_distances = List.replicate 15 (100 : ℝ) ∧
    flexRecalibrated.ex.baseline_distance = some 150 ∧
    npMedian (List.map flexion_metric (List.replicate 15 lmDist200)) = 200 ∧
    (150 : ℝ) ≠ 200 := by
  have hreset : flexAfter15.reset =
      { base := { exercise_type := ExerciseType.cervical_flexion
                  config := defaultSystemConfig
                  calibration_frames := 15
                  frames_collected := 0
                  is_calibrated := false
                  previous_confidence := 0 }
        ex := { baseline_distance := some 100
                calibration_distances := List.replicate 15 (100 : ℝ)
                threshold := 0.85 } } := by
    rw [flexAfter15_eq]
    rfl
  have hrecal : flexRecalibrated.ex.baseline_distance = some 150 := by
    unfold flexRecalibrated
    rw [hreset]
    rw [show List.replicate 15 (some lmDist200) = (List.replicate 15 lmDist200).map some by
      rw [List.map_replicate]]
    rw [flexion_run_calibration _ _ rfl rfl rfl (by simp)]
    simp only [List.map_replicate, flexion_metric_lmDist200]
    rw [npMedian_block30]
  refine ⟨by rw [hreset], by rw [hreset], by rw [hreset], by rw [hreset], by rw [hreset],
    hrecal, ?_, by norm_num⟩
  rw [List.map_replicate, flexion_metric_lmDist200,
    npMedian_replicate 15 (200 : ℝ) (by norm_num)]

/-- C3 counterexample: a calibrated rotation detector (baselines 10 and
10 from 15 neutral frames) on a frame with left ratio 25/10 = 2.5 and
right ratio 5/10 = 0.5 reports direction "RIGHT" although the left ratio
is the larger one — the direction metric names the opposite side, not
"the side whose ratio is larger". -/
theorem rotation_direction_counterexample :
    rotAfter15.base.is_calibrated = true ∧
    rotation_impl.detect_exercise rotAfter15.ex lmRotTest =
      Except.ok (true, 1,
        [("max_ratio", MetricValue.num (5 / 2)),
         ("direction", MetricValue.str "RIGHT"),
         ("threshold", MetricValue.num 1.5)]) ∧
    rotation_left_metric lmRotTest / 10 > rotation_right_metric lmRotTest / 10 ∧
    MetricValue.str "RIGHT" ≠ MetricValue.str "LEFT" := by
  refine ⟨by rw [rotAfter15_eq], ?_, ?_, by simp⟩
  · rw [rotAfter15_eq]
    exact rotation_detect_lmRotTest
  · rw [rotation_left_metric_lmRotTest, rotation_right_metric_lmRotTest]
    norm_num

/-- C3 amended: for every calibrated neck-rotation detector (both
baselines present and nonzero, threshold 1.5) and every present frame,
with left_ratio and right_ratio the horizontal nose-to-ear offsets
divided by their baselines: detected is true iff
max(left_ratio, right_ratio) > 1.5; the raw confidence before smoothing
is (max_ratio − 1.5)/1.0 clamped to [0,1] when detected and 0 otherwise;
and the direction metric names the side OPPOSITE to the larger ratio:
"RIGHT" when the left ratio is strictly larger, "LEFT" otherwise. -/
theorem rotation_detect_spec (e : RotationFields) (l : LandmarkPoints) (bl br : ℝ)
    (h1 : e.baseline_left = some bl) (h2 : e.baseline_right = some br)
    (h3 : e.threshold = 1.5) (h4 : bl ≠ 0) (h5 : br ≠ 0)
    (d : Bool) (c : ℝ) (m : Metrics)
    (hok : rotation_impl.detect_exercise e l = Except.ok (d, c, m)) :
    (d = true ↔
      max (rotation_left_metric l / bl) (rotation_right_metric l / br) > 1.5) ∧
    c = (if max (rotation_left_metric l / bl) (rotation_right_metric l / br) > 1.5 then
          max 0 (min 1
            ((max (rotation_left_metric l / bl) (rotation_right_metric l / br) - 1.5) / 1.0))
        else 0) ∧
    m.lookup "direction" =
      some (MetricValue.str
        (if rotation_left_metric l / bl > rotation_right_metric l / br then "RIGHT"
         else "LEFT")) := by
  simp only [rotation_impl] at hok
  unfold rotation_detect_exercise at hok
  rw [h1, h2, h3] at hok
  simp only [] at hok
  rw [show calculate_ratio (rotation_left_metric l) bl = rotation_left_metric l / bl by
    unfold calculate_ratio; rw [if_neg h4]] at hok
  rw [show calculate_ratio (rotation_right_metric l) br = rotation_right_metric l / br by
    unfold calculate_ratio; rw [if_neg h5]] at hok
  simp only [Except.ok.injEq, Prod.mk.injEq] at hok
  obtain ⟨hd, hc, hm⟩ := hok
  refine ⟨?_, ?_, ?_⟩
  · rw [← hd]
    exact decide_eq_true_iff
  · rw [← hc]
    split
    next hdec => rw [if_pos (of_decide_eq_true hdec)]
    next hdec => rw [if_neg (fun hp => hdec (decide_eq_true hp))]
  · rw [← hm]
    simp [List.lookup]

/-- Witness for C3 amended: the calibrated rotation detector with
baselines 10 and 10 on the turned-head frame. -/
theorem rotation_detect_spec_witness :
    (some (10 : ℝ) = some (10 : ℝ)) ∧ ((1.5 : ℝ) = 1.5) ∧ ((10 : ℝ) ≠ 0) ∧
    (rotation_impl.detect_exercise
        { baseline_left := some 10
          baseline_right := some 10
          calibration_left := List.replicate 15 (10 : ℝ)
          calibration_right := List.replicate 15 (10 : ℝ)
          threshold := 1.5 } lmRotTest =
      Except.ok (true, 1,
        [("max_ratio", MetricValue.num (5 / 2)),
         ("direction", MetricValue.str "RIGHT"),
         ("threshold", MetricValue.num 1.5)])) ∧
    ((true = true ↔
      max (rotation_left_metric lmRotTest / 10) (rotation_right_metric lmRotTest / 10) > 1.5) ∧
    (1 : ℝ) = (if max (rotation_left_metric lmRotTest / 10)
          (rotation_right_metric lmRotTest / 10) > 1.5 then
          max 0 (min 1
            ((max (rotation_left_metric lmRotTest / 10)
              (rotation_right_metric lmRotTest / 10) - 1.5) / 1.0))
        else 0) ∧
    List.lookup "direction"
        [("max_ratio", MetricValue.num (5 / 2)),
         ("direction", MetricValue.str "RIGHT"),
         ("threshold", MetricValue.num 1.5)] =
      some (MetricValue.str
        (if rotation_left_metric lmRotTest / 10 > rotation_right_metric lmRotTest / 10 then
          "RIGHT" else "LEFT"))) :=
  ⟨rfl, rfl, by norm_num, rotation_detect_lmRotTest,
    rotation_detect_spec _ lmRotTest 10 10 rfl rfl rfl (by norm_num) (by norm_num)
      true 1 _ rotation_detect_lmRotTest⟩

/-- C4: from a freshly constructed detector, any 15 present frames yield
14 CALIBRATING results then exactly one READY result on the 15th frame;
is_calibrated is false after the first 14 frames and true after the 15th;
and (for the cervical-flexion detector, whose finalize step the claim
cites) the finalized baseline is the median of the 15 per-frame metric
values. -/
theorem calibration_lifecycle (impl : ExerciseImpl E) (t : ExerciseType)
    (config : SystemConfig) (ex0 : E) (ls : List LandmarkPoints)
    (hlen : ls.length = 15) :
    ((run impl ⟨base_init t config, ex0⟩ (ls.map some)).2.map ExerciseResult.status =
      List.replicate 14 DetectionStatus.calibrating ++ [DetectionStatus.ready]) ∧
    (run impl ⟨base_init t config, ex0⟩ ((ls.take 14).map some)).1.base.is_calibrated = false ∧
    (run impl ⟨base_init t config, ex0⟩ (ls.map some)).1.base.is_calibrated = true ∧
    (run flexion_impl (mkCervicalFlexionDetector config) (ls.map some)).1.ex.baseline_distance =
      some (npMedian (ls.map flexion_metric)) := by
  have h := run_calibration_statuses impl ⟨base_init t config, ex0⟩ ls rfl rfl rfl hlen
  refine ⟨h.1, ?_, h.2, ?_⟩
  · rw [run_calibrating impl (ls.take 14) _ rfl
      (by show (0 : ℕ) + (ls.take 14).length < 15
          rw [List.length_take]
          omega)]
    rfl
  · rw [flexion_run_calibration _ _ rfl rfl rfl hlen]
    simp [mkCervicalFlexionDetector]

/-- Witness for C4: the flexion detector on 15 neutral frames. -/
theorem calibration_lifecycle_witness :
    (List.replicate 15 lmBase).length = 15 ∧
    (((run flexion_impl
        ⟨base_init ExerciseType.cervical_flexion defaultSystemConfig,
          (mkCervicalFlexionDetector defaultSystemConfig).ex⟩
        ((List.replicate 15 lmBase).map some)).2.map ExerciseResult.status =
      List.replicate 14 DetectionStatus.calibrating ++ [DetectionStatus.ready]) ∧
    (run flexion_impl
        ⟨base_init ExerciseType.cervical_flexion defaultSystemConfig,
          (mkCervicalFlexionDetector defaultSystemConfig).ex⟩
        (((List.replicate 15 lmBase).take 14).map some)).1.base.is_calibrated = false ∧
    (run flexion_impl
        ⟨base_init ExerciseType.cervical_flexion defaultSystemConfig,
          (mkCervicalFlexionDetector defaultSystemConfig).ex⟩
        ((List.replicate 15 lmBase).map some)).1.base.is_calibrated = true ∧
    (run flexion_impl (mkCervicalFlexionDetector defaultSystemConfig)
        ((List.replicate 15 lmBase).map some)).1.ex.baseline_distance =
      some (npMedian ((List.replicate 15 lmBase).map flexion_metric))) :=
  ⟨by simp,
    calibration_lifecycle flexion_impl ExerciseType.cervical_flexion defaultSystemConfig
      (mkCervicalFlexionDetector defaultSystemConfig).ex (List.replicate 15 lmBase) (by simp)⟩

/-- C6 counterexample: with a config requesting 20 calibration frames,
the flexion detector still stores the hardcoded 15 and completes
calibration on the 15th frame (READY on frame 15, calibrated), where the
claim requires the calibration phase to last 20 frames. -/
theorem config_frames_ignored :
    cfg20.calibration_frames = 20 ∧
    (mkCervicalFlexionDetector cfg20).base.calibration_frames = 15 ∧
    (run flexion_impl (mkCervicalFlexionDetector cfg20)
        ((List.replicate 15 lmBase).map some)).1.base.is_calibrated = true ∧
    ((run flexion_impl (mkCervicalFlexionDetector cfg20)
        ((List.replicate 15 lmBase).map some)).2.map ExerciseResult.status =
      List.replicate 14 DetectionStatus.calibrating ++ [DetectionStatus.ready]) := by
  have h := run_calibration_statuses flexion_impl (mkCervicalFlexionDetector cfg20)
    (List.replicate 15 lmBase) rfl rfl rfl (by simp)
  exact ⟨rfl, rfl, h.2, h.1⟩

/-- C6 amended: the calibration phase always lasts exactly 15 frames and
confidence smoothing always uses the factor 0.3, for every supplied
DetectorConfig — the configured calibration_frames and
confidence_smoothing values are stored but never used. -/
theorem config_settings_ignored (config : SystemConfig) (t : ExerciseType)
    (s : Detector FlexionFields) (l : LandmarkPoints) (d : Bool) (c : ℝ) (m : Metrics)
    (hcal : s.base.is_calibrated = true)
    (hde : flexion_impl.detect_exercise s.ex l = Except.ok (d, c, m)) :
    (base_init t config).calibration_frames = 15 ∧
    (run flexion_impl (mkCervicalFlexionDetector config)
        ((List.replicate 15 lmBase).map some)).1.base.is_calibrated = true ∧
    (detect flexion_impl s (some l)).2.confidence =
      0.3 * c + (1 - 0.3) * s.base.previous_confidence := by
  refine ⟨rfl, (run_calibration_statuses flexion_impl (mkCervicalFlexionDetector config)
    (List.replicate 15 lmBase) rfl rfl rfl (by simp)).2, ?_⟩
  simp only [detect, hcal, if_true, hde, smooth_value]

/-- Witness for C6 amended: a calibrated flexion detector that carries
the 20-frame config, on the distance-80 frame. -/
theorem config_settings_ignored_witness :
    flexWitnessState.base.is_calibrated = true ∧
    flexion_impl.detect_exercise flexWitnessState.ex lmFlex80 =
      Except.ok (true, 1 / 3,
        [("distance_ratio", MetricValue.num (80 / 100)),
         ("threshold", MetricValue.num 0.85)]) ∧
    ((base_init ExerciseType.cervical_flexion cfg20).calibration_frames = 15 ∧
     (run flexion_impl (mkCervicalFlexionDetector cfg20)
        ((List.replicate 15 lmBase).map some)).1.base.is_calibrated = true ∧
     (detect flexion_impl flexWitnessState (some lmFlex80)).2.confidence =
       0.3 * (1 / 3) + (1 - 0.3) * flexWitnessState.base.previous_confidence) :=
  ⟨rfl, flexion_detect80,
    config_settings_ignored cfg20 ExerciseType.cervical_flexion flexWitnessState lmFlex80
      true (1 / 3) _ rfl flexion_detect80⟩

/-- C8: for every config and every sequence of detect() calls with
present or absent landmarks interleaved with resets, starting from a
fresh detector, every returned confidence lies in [0,1] and the stored
previous smoothed confidence stays in [0,1] — for each of the five
detectors. -/
theorem confidence_unit_interval (config : SystemConfig) (acts : List Action) :
    ((∀ r ∈ (run_actions flexion_impl (mkCervicalFlexionDetector config) acts).2,
        0 ≤ r.confidence ∧ r.confidence ≤ 1) ∧
      0 ≤ (run_actions flexion_impl (mkCervicalFlexionDetector config)
            acts).1.base.previous_confidence ∧
      (run_actions flexion_impl (mkCervicalFlexionDetector config)
        acts).1.base.previous_confidence ≤ 1) ∧
    ((∀ r ∈ (run_actions extension_impl (mkCervicalExtensionDetector config) acts).2,
        0 ≤ r.confidence ∧ r.confidence ≤ 1) ∧
      0 ≤ (run_actions extension_impl (mkCervicalExtensionDetector config)
            acts).1.base.previous_confidence ∧
      (run_actions extension_impl (mkCervicalExtensionDetector config)
        acts).1.base.previous_confidence ≤ 1) ∧
    ((∀ r ∈ (run_actions tilt_impl (mkLateralNeckTiltDetector config) acts).2,
        0 ≤ r.confidence ∧ r.confidence ≤ 1) ∧
      0 ≤ (run_actions tilt_impl (mkLateralNeckTiltDetector config)
            acts).1.base.previous_confidence ∧
      (run_actions tilt_impl (mkLateralNeckTiltDetector config)
        acts).1.base.previous_confidence ≤ 1) ∧
    ((∀ r ∈ (run_actions rotation_impl (mkNeckRotationDetector config) acts).2,
        0 ≤ r.confidence ∧ r.confidence ≤ 1) ∧
      0 ≤ (run_actions rotation_impl (mkNeckRotationDetector config)
            acts).1.base.previous_confidence ∧
      (run_actions rotation_impl (mkNeckRotationDetector config)
        acts).1.base.previous_confidence ≤ 1) ∧
    ((∀ r ∈ (run_actions chin_tuck_impl (mkChinTuckDetector config) acts).2,
        0 ≤ r.confidence ∧ r.confidence ≤ 1) ∧
      0 ≤ (run_actions chin_tuck_impl (mkChinTuckDetector config)
            acts).1.base.previous_confidence ∧
      (run_actions chin_tuck_impl (mkChinTuckDetector config)
        acts).1.base.previous_confidence ≤ 1) := by
  have hf := run_actions_conf01 flexion_impl flexion_conf01 acts
    (mkCervicalFlexionDetector config) ⟨le_refl 0, zero_le_one⟩
  have he := run_actions_conf01 extension_impl extension_conf01 acts
    (mkCervicalExtensionDetector config) ⟨le_refl 0, zero_le_one⟩
  have ht := run_actions_conf01 tilt_impl tilt_conf01 acts
    (mkLateralNeckTiltDetector config) ⟨le_refl 0, zero_le_one⟩
  have hr := run_actions_conf01 rotation_impl rotation_conf01 acts
    (mkNeckRotationDetector config) ⟨le_refl 0, zero_le_one⟩
  have hc := run_actions_conf01 chin_tuck_impl chin_tuck_conf01 acts
    (mkChinTuckDetector config) ⟨le_refl 0, zero_le_one⟩
  exact ⟨⟨hf.1, hf.2.1, hf.2.2⟩, ⟨he.1, he.2.1, he.2.2⟩, ⟨ht.1, ht.2.1, ht.2.2⟩,
    ⟨hr.1, hr.2.1, hr.2.2⟩, ⟨hc.1, hc.2.1, hc.2.2⟩⟩

/-- C10: a fresh flexion detector calibrated over 15 frames of
nose-to-mid-shoulder distance 100 finalizes baseline 100, and on a frame
of distance 80 (ratio 0.8 < 0.85) its raw pre-smoothing result is
detected=true with confidence (0.85 − 0.8)/0.15 = 1/3. -/
theorem flexion_end_to_end :
    flexAfter15.base.is_calibrated = true ∧
    flexion_metric lmBase = 100 ∧
    flexAfter15.ex.baseline_distance = some 100 ∧
    flexion_metric lmFlex80 = 80 ∧
    flexion_impl.detect_exercise flexAfter15.ex lmFlex80 =
      Except.ok (true, 1 / 3,
        [("distance_ratio", MetricValue.num (80 / 100)),
         ("threshold", MetricValue.num 0.85)]) ∧
    (1 : ℝ) / 3 = (0.85 - 0.8) / 0.15 ∧
    (80 : ℝ) / 100 = 0.8 ∧ (0.8 : ℝ) < 0.85 := by
  refine ⟨by rw [flexAfter15_eq], flexion_metric_lmBase, by rw [flexAfter15_eq],
    flexion_metric_lmFlex80, ?_, by norm_num, by norm_num, by norm_num⟩
  rw [flexAfter15_eq]
  exact flexion_detect80

end Claims

end CPD
